import Mathlib

/-!
Shallow embedding of hooks/forbid_secrets.py (sops-pre-commit).

YAML values are modelled by the inductive type Val below. Python strings are
Lean strings; the string operations used by the hook (strip, lower, split,
splitlines, substring search, startswith, endswith) are re-implemented over
the character list of the string so that every definition evaluates by
kernel reduction. Fallible Python code (code that can raise an exception
that escapes the function) is modelled with Option: a result of none stands
for an uncaught exception. The yaml.safe_load function of the PyYAML library
is external to the repository and is modelled as an oracle parameter of type
String to Option Val, where none stands for a yaml.YAMLError.
-/

set_option autoImplicit false

namespace SopsPreCommit

/-- Val models a value produced by yaml.safe_load: null, booleans, integers,
strings, sequences and mappings with string keys (the only key shape the hook
ever looks up). -/
inductive Val where
  | vnull : Val
  | vbool : Bool → Val
  | vint : Int → Val
  | vstr : String → Val
  | vlist : List Val → Val
  | vmap : List (String × Val) → Val

/-- Whitespace characters stripped by the Python str.strip method (the ASCII
ones that occur in practice). -/
def isWS (c : Char) : Bool :=
  c == ' ' || c == '\t' || c == '\n' || c == '\r'

/-- Drop leading whitespace characters from a character list. -/
def dropWS : List Char → List Char
  | [] => []
  | c :: cs => if isWS c then dropWS cs else c :: cs

/-- Python str.strip restricted to ASCII whitespace. -/
def pyStrip (s : String) : String :=
  String.mk (((dropWS s.data).reverse |> dropWS).reverse)

/-- Python str.lower (character by character). -/
def pyLower (s : String) : String :=
  String.mk (s.data.map Char.toLower)

/-- Does the first character list start with the second one. -/
def listStartsWith : List Char → List Char → Bool
  | _, [] => true
  | [], _ :: _ => false
  | c :: cs, d :: ds => c == d && listStartsWith cs ds

/-- Does the first character list contain the second one as a contiguous
sublist (the Python substring test, pattern in text). -/
def listContains : List Char → List Char → Bool
  | [], pat => listStartsWith [] pat
  | c :: rest, pat => listStartsWith (c :: rest) pat || listContains rest pat

/-- Python str.startswith for a single pattern. -/
def pyStartsWith (s pat : String) : Bool :=
  listStartsWith s.data pat.data

/-- Python str.endswith for a single pattern. -/
def pyEndsWith (s pat : String) : Bool :=
  listStartsWith s.data.reverse pat.data.reverse

/-- Python substring membership test, pat in s. -/
def pyContains (s pat : String) : Bool :=
  listContains s.data pat.data

/-- Characters after the first occurrence of a colon; empty when there is no
colon. Models line.split(Colon, 1) index 1. -/
def afterFirstColon : List Char → List Char
  | [] => []
  | c :: cs => if c == ':' then cs else afterFirstColon cs

/-- Python line.splitlines restricted to the line breaks that occur in the
files the hook reads: LF, CRLF and CR. -/
def splitlinesAux : List Char → List Char → List (List Char)
  | [], [] => []
  | [], acc => [acc.reverse]
  | '\r' :: '\n' :: rest, acc => acc.reverse :: splitlinesAux rest []
  | '\n' :: rest, acc => acc.reverse :: splitlinesAux rest []
  | '\r' :: rest, acc => acc.reverse :: splitlinesAux rest []
  | c :: rest, acc => splitlinesAux rest (c :: acc)

/-- Python str.splitlines. -/
def pySplitlines (s : String) : List String :=
  (splitlinesAux s.data []).map String.mk

/-- Python newline.join over a list of lines. -/
def pyJoinNL : List String → String
  | [] => ""
  | [s] => s
  | s :: rest => s ++ "\n" ++ pyJoinNL rest

/-- First binding of a key in a mapping (Python dict lookup; real dicts have
unique keys, so taking the first binding is faithful). -/
def lookupKey (m : List (String × Val)) (k : String) : Option Val :=
  match m with
  | [] => none
  | p :: rest => if p.1 == k then some p.2 else lookupKey rest k

/-- Python key in dict. -/
def hasKey (m : List (String × Val)) (k : String) : Bool :=
  (lookupKey m k).isSome

/-- Python dict.get with default None. -/
def pyGet (m : List (String × Val)) (k : String) : Val :=
  (lookupKey m k).getD Val.vnull

/-- Python dict.get with an explicit default. -/
def pyGetD (m : List (String × Val)) (k : String) (d : Val) : Val :=
  (lookupKey m k).getD d

/-- Is the value the Python None. -/
def isNull : Val → Bool
  | Val.vnull => true
  | _ => false

/-- Python equality of a value with a string literal: true exactly when the
value is that string. -/
def isStr (v : Val) (s : String) : Bool :=
  match v with
  | Val.vstr t => t == s
  | _ => false

/-- Python truthiness of a value. -/
def truthy : Val → Bool
  | Val.vnull => false
  | Val.vbool b => b
  | Val.vint n => n != 0
  | Val.vstr s => !(s == "")
  | Val.vlist l => !l.isEmpty
  | Val.vmap m => !m.isEmpty

/-- Python needle in container for a string needle: key membership for a
dict, substring for a string, element membership for a list; a TypeError
(none) otherwise. -/
def pyInStr (needle : String) : Val → Option Bool
  | Val.vmap m => some (hasKey m needle)
  | Val.vstr s => some (pyContains s needle)
  | Val.vlist l => some (l.any (fun v => isStr v needle))
  | _ => none

/-- Python iteration over a value: a list yields its elements, a string its
characters (as one-character strings), a dict its keys; a TypeError (none)
otherwise. -/
def pyIter : Val → Option (List Val)
  | Val.vlist l => some l
  | Val.vstr s => some (s.data.map (fun c => Val.vstr (String.mk [c])))
  | Val.vmap m => some (m.map (fun p => Val.vstr p.1))
  | _ => none

/-- Python subscript v[k] for a string key k: dict lookup (a missing key, a
KeyError, and a non-dict container, a TypeError, are both exceptions). -/
def pyGetItem (v : Val) (k : String) : Option Val :=
  match v with
  | Val.vmap m => lookupKey m k
  | _ => none

/-!
The functions of hooks/forbid_secrets.py. Names follow the source. The
filename argument is kept even where it only feeds diagnostic printing.
-/

/-- Lines 109 to 125 of the source: validate_sops_metadata(data, filename).
Takes the bindings of the document mapping. -/
def validate_sops_metadata (data : List (String × Val)) (fn : String) : Bool :=
  match pyGet data "sops" with
  | Val.vmap sops_data =>
    if !(hasKey sops_data "mac") || !(hasKey sops_data "lastmodified")
        || isNull (pyGet sops_data "mac") || isNull (pyGet sops_data "lastmodified")
    then false
    else true
  | _ => false

/-- Presence test of lines 89 to 99 of the source for one of the two data
variables: for a dict value, any(v for v in values() if v is not None and
v is not the empty string), where any tests Python truthiness of the yielded
value; for a scalar, v is not None and v is not the empty string. -/
def field_present : Val → Bool
  | Val.vmap dm => dm.any (fun p => (!(isNull p.2) && !(isStr p.2 "")) && truthy p.2)
  | v => !(isNull v) && !(isStr v "")

/-- Lines 64 to 106 of the source: the part of check_secret after the ksops
and Kustomization branches. This code raises no exception, so it is a plain
Bool. -/
def check_rest (m : List (String × Val)) (fn : String) : Bool :=
  -- lines 65 to 67: a Kubernetes resource of a kind other than Secret passes
  if hasKey m "kind" && !(isStr (pyGet m "kind") "Secret") then true
  else
    let has_data := hasKey m "data"
    let has_string_data := hasKey m "stringData"
    if !(has_data || has_string_data) then
      -- lines 74 to 78
      if isStr (pyGet m "kind") "Secret" && hasKey m "sops" then
        validate_sops_metadata m fn
      else true
    else if hasKey m "sops" then
      -- lines 81 to 82
      validate_sops_metadata m fn
    else
      -- lines 84 to 106
      let data_value := pyGet m "data"
      let string_data_value := pyGet m "stringData"
      if field_present data_value || field_present string_data_value then false
      else true

/-- Lines 40 to 46 of the source: the loop over generator files. Each file
must be a string (otherwise str.endswith raises an AttributeError, none). -/
def check_files : List Val → Option Bool
  | [] => some true
  | f :: fs =>
    match f with
    | Val.vstr s =>
      if !(pyEndsWith s ".enc.yaml" || pyEndsWith s ".sops.yaml") then some false
      else check_files fs
    | _ => none

/-- Lines 32 to 46 of the source: the loop over secretGenerator entries. -/
def check_generators : List Val → Option Bool
  | [] => some true
  | g :: gs => do
    let hasLit ← pyInStr "literals" g
    if hasLit then some false
    else do
      let hasFiles ← pyInStr "files" g
      if hasFiles then do
        let fv ← pyGetItem g "files"
        let fl ← pyIter fv
        let ok ← check_files fl
        if ok then check_generators gs else some false
      else check_generators gs

/-- Lines 50 to 61 of the source: the loop over patches entries. The
recursive call check_secret(patch_data, filename) at line 56 is guarded by
patch_data.get(kind) being the string Secret; on such a document the full
check_secret function reduces to check_rest (its ksops and Kustomization
branches cannot fire), so the call is written as check_rest here; the lemma
check_secret_eq_check_rest_on_secret below proves this unfolding faithful.
A patch value that is not a string makes yaml.safe_load raise an error that
the except clause for YAMLError does not catch (none). -/
def check_patches (parse : String → Option Val) (fn : String) : List Val → Option Bool
  | [] => some true
  | p :: ps =>
    match p with
    | Val.vmap pm =>
      match lookupKey pm "patch" with
      | some (Val.vstr s) =>
        (match parse s with
         | none => check_patches parse fn ps
         | some pd =>
           match pd with
           | Val.vmap pdm =>
             if isStr (pyGet pdm "kind") "Secret" then
               if check_rest pdm fn then check_patches parse fn ps else some false
             else check_patches parse fn ps
           | _ => check_patches parse fn ps)
      | some _ => none
      | none => check_patches parse fn ps
    | _ => check_patches parse fn ps

/-- Lines 31 to 46 of the source: the secretGenerator section of the
Kustomization branch. -/
def gen_result (m : List (String × Val)) : Option Bool :=
  if hasKey m "secretGenerator" then do
    let gv ← pyGetItem (Val.vmap m) "secretGenerator"
    let gens ← pyIter gv
    check_generators gens
  else some true

/-- Lines 49 to 61 of the source: the patches section of the Kustomization
branch. -/
def patches_result (parse : String → Option Val) (m : List (String × Val))
    (fn : String) : Option Bool :=
  if hasKey m "patches" then do
    let pv ← pyGetItem (Val.vmap m) "patches"
    let pl ← pyIter pv
    check_patches parse fn pl
  else some true

/-- Lines 29 to 62 of the source: the Kustomization branch of check_secret.
A return False inside the secretGenerator loop leaves the whole function, so
a false generator result short-circuits the patches section. -/
def check_kustomization (parse : String → Option Val) (m : List (String × Val))
    (fn : String) : Option Bool := do
  let genOk ← gen_result m
  if !genOk then some false
  else patches_result parse m fn

/-- Lines 21 to 26 of the source: data.get(kind) == ksops and
data.get(apiVersion, empty).startswith(viaduct.ai/). The and operator
short-circuits, so startswith (which raises an AttributeError on a non-string
value, none) is only reached when the kind is the string ksops. Result:
some true when the branch returns True, some false when it falls through. -/
def ksops_check (m : List (String × Val)) : Option Bool :=
  if isStr (pyGet m "kind") "ksops" then
    match pyGetD m "apiVersion" (Val.vstr "") with
    | Val.vstr av => some (pyStartsWith av "viaduct.ai/")
    | _ => none
  else some false

/-- Lines 8 to 106 of the source: check_secret(data, filename). The parse
oracle models yaml.safe_load, used for nested kustomize patches. -/
def check_secret (parse : String → Option Val) (data : Val) (fn : String) : Option Bool :=
  match data with
  | Val.vmap m =>
    (match ksops_check m with
     | none => none
     | some true => some true
     | some false =>
       if isStr (pyGet m "kind") "Kustomization" then check_kustomization parse m fn
       else some (check_rest m fn))
  | _ => some true

/-- Line 141 of the source. -/
def sensitive_keys : List String :=
  ["password:", "token:", "secret:", "key:", "cert:", "data:"]

/-- Lines 157 to 158 of the source: the value part after the key. -/
def tmplValue (line : String) : String :=
  if pyContains line ":" then pyStrip (String.mk (afterFirstColon line.data)) else ""

/-- Lines 144 to 173 of the source: the loop of check_template_content. -/
def tmpl_go : List String → Bool
  | [] => true
  | l :: ls =>
    let line := pyStrip l
    if line == "" || pyStartsWith line "#" then tmpl_go ls
    else if sensitive_keys.any (fun k => pyContains (pyLower line) k) then
      if pyContains line "# sops-pre-commit: ignore-line" then tmpl_go ls
      else
        let value := tmplValue line
        if value == "" || pyStartsWith value "\x7b\x7b" || pyStartsWith value "\x7b%"
            || pyStartsWith value "$\x7b" || pyStartsWith value "$("
            || pyContains value "ENC[" then tmpl_go ls
        else false
    else tmpl_go ls

/-- Lines 128 to 173 of the source: check_template_content(content, filename). -/
def check_template_content (content : String) (fn : String) : Bool :=
  if content == "" || pyStrip content == "" then true
  else tmpl_go (pySplitlines content)

/-- Lines 194 to 199 (also 209 to 214 and 226 to 231) of the source: parse
the accumulated block and append the document when it parses and is truthy
(the source tests if doc, so a document parsing to None or to an empty
collection is discarded like a parse failure). -/
def flush_doc (parse : String → Option Val) (cur : List String) (docs : List Val) : List Val :=
  match parse (pyJoinNL cur) with
  | some d => if truthy d then docs ++ [d] else docs
  | none => docs

/-- Lines 190 to 231 of the source: the line loop of extract_yaml_documents,
with the loop state (remaining lines, current_doc, in_yaml, documents)
explicit. -/
def extract_go (parse : String → Option Val) :
    List String → List String → Bool → List Val → List Val
  | [], cur, inY, docs =>
    if !cur.isEmpty && inY then flush_doc parse cur docs else docs
  | line :: rest, cur, inY, docs =>
    if pyStrip line == "---" || pyStartsWith (pyStrip line) "apiVersion:" then
      let docs2 := if !cur.isEmpty && inY then flush_doc parse cur docs else docs
      extract_go parse rest [line] true docs2
    else if inY then
      if pyStrip line == "" || pyStartsWith (pyStrip line) "DEBUG:"
          || pyStartsWith (pyStrip line) "Command:" || pyStartsWith (pyStrip line) "#" then
        extract_go parse rest [] false (flush_doc parse cur docs)
      else
        extract_go parse rest (cur ++ [line]) inY docs
    else if pyStartsWith (pyStrip line) "apiVersion:" || pyStartsWith (pyStrip line) "kind:"
        || pyStartsWith (pyStrip line) "metadata:" then
      extract_go parse rest (cur ++ [line]) true docs
    else
      extract_go parse rest cur inY docs

/-- Lines 176 to 233 of the source: extract_yaml_documents(content). -/
def extract_yaml_documents (parse : String → Option Val) (content : String) : List Val :=
  extract_go parse (pySplitlines content) [] false []

/-- Lines 269 to 272 of the source: the per-document loop of main. The line
if doc and not check_secret skips falsy documents; an exception escaping
check_secret is caught by the outer except clause and sets the exit code, so
it also makes the file fail. Result: true when the file adds no failure. -/
def check_docs (parse : String → Option Val) : List Val → String → Bool
  | [], _ => true
  | d :: ds, fn =>
    if truthy d then
      match check_secret parse d fn with
      | some true => check_docs parse ds fn
      | some false => false
      | none => false
    else check_docs parse ds fn

/-- Lines 261 to 266 of the source: try yaml.safe_load_all on the whole
content (oracle parse_all, none standing for a YAMLError) and fall back to
extract_yaml_documents on failure. -/
def load_docs (parse_all : String → Option (List Val)) (parse : String → Option Val)
    (content : String) : List Val :=
  match parse_all content with
  | some ds => ds
  | none => extract_yaml_documents parse content

/-- Lines 249 to 251 of the source: is the file-level ignore marker in one
of the first three lines. -/
def ignore_file_marker (content : String) : Bool :=
  ((pySplitlines content).take 3).any (fun l => pyContains l "# sops-pre-commit: ignore-file")

/-- Lines 249 to 277 of the source: the body of the per-file loop of main,
given the already-read content. Result: true when the file leaves the exit
code unchanged. Note the template branch at lines 255 to 258: when the
template scan fails the driver records the failure and skips to the next
file, but when the scan passes control falls through to the document
parsing and classification below it. -/
def process_file (parse_all : String → Option (List Val)) (parse : String → Option Val)
    (filename content : String) : Bool :=
  if ignore_file_marker content then true
  else if (pyEndsWith filename ".j2" || pyEndsWith filename ".jsonnet")
      && !(check_template_content content filename) then false
  else
    check_docs parse (load_docs parse_all parse content) filename

/-!
Concrete oracle instances and inputs used by witnesses and counterexamples.
-/

/-- Parse oracle on which every string fails to parse (a YAMLError). -/
def parse_none : String → Option Val := fun _ => none

/-- Parse oracle for the kustomize-patch scenarios: the string ps parses to
a Secret document with a non-empty stringData field. -/
def parse_patch_secret : String → Option Val := fun s =>
  if s == "ps" then
    some (Val.vmap [("kind", Val.vstr "Secret"), ("stringData", Val.vmap [("a", Val.vstr "b")])])
  else none

/-- Parse oracle matching yaml.safe_load on the one-line stream consisting of
three dashes: the parse succeeds and yields None. -/
def parse_null_doc : String → Option Val := fun s =>
  if s == "---" then some Val.vnull else none

/-- Parse oracle matching yaml.safe_load on the indented line kind: a, which
parses to the mapping with the single key kind. -/
def parse_indented_kind : String → Option Val := fun s =>
  if s == "  kind: a" then some (Val.vmap [("kind", Val.vstr "a")]) else none

/-- Template-file content whose line scan passes but whose parsed form is an
unencrypted Secret document. -/
def tpl_content : String := "kind: Secret\nstringData:\n  a: b"

/-- The document yaml.safe_load_all yields for tpl_content. -/
def tpl_doc : Val :=
  Val.vmap [("kind", Val.vstr "Secret"), ("stringData", Val.vmap [("a", Val.vstr "b")])]

/-- Whole-stream oracle returning the tpl_content document. -/
def parse_all_secret : String → Option (List Val) := fun _ => some [tpl_doc]

/-- Whole-stream oracle returning no documents. -/
def parse_all_empty : String → Option (List Val) := fun _ => some []

/-!
Derived predicates used to state the claims about the Kustomization branch,
the template scanner and the extractor.
-/

/-- Does a secretGenerator entry carry a literals key. -/
def entry_literals : Val → Bool
  | Val.vmap gm => hasKey gm "literals"
  | _ => false

/-- Does any secretGenerator entry carry a literals key. -/
def hasLiterals (gens : List Val) : Bool :=
  gens.any entry_literals

/-- Is a referenced file path missing both approved encrypted suffixes. -/
def bad_file : Val → Bool
  | Val.vstr s => !(pyEndsWith s ".enc.yaml" || pyEndsWith s ".sops.yaml")
  | _ => false

/-- Does a secretGenerator entry reference a file without an approved
encrypted suffix. -/
def entry_badfiles : Val → Bool
  | Val.vmap gm =>
    (match lookupKey gm "files" with
     | some (Val.vlist fl) => fl.any bad_file
     | _ => false)
  | _ => false

/-- Does any secretGenerator entry reference a non-encrypted file. -/
def hasBadFile (gens : List Val) : Bool :=
  gens.any entry_badfiles

/-- Well-formedness of a secretGenerator list matching the GeneratorSpec
data model of the spec: every entry is a mapping and a files key, when
present, holds a list of strings. -/
def entryWF : Val → Bool
  | Val.vmap gm =>
    (match lookupKey gm "files" with
     | none => true
     | some (Val.vlist fl) => fl.all (fun f => match f with | Val.vstr _ => true | _ => false)
     | some _ => false)
  | _ => false

/-- Well-formedness of all secretGenerator entries. -/
def gensWF (gens : List Val) : Bool :=
  gens.all entryWF

/-- Well-formedness of a patches list matching the PatchSpec data model of
the spec: in every entry that is a mapping, a patch key, when present, holds
a string (a serialized sub-document). -/
def patchesWF (pl : List Val) : Bool :=
  pl.all (fun p =>
    match p with
    | Val.vmap pm =>
      (match lookupKey pm "patch" with
       | none => true
       | some (Val.vstr _) => true
       | some _ => false)
    | _ => true)

/-- Does some patches entry embed a document that parses to a mapping of
kind Secret failing the classifier. -/
def anyFailingSecret (parse : String → Option Val) (pl : List Val) (fn : String) : Bool :=
  pl.any (fun p =>
    match p with
    | Val.vmap pm =>
      (match lookupKey pm "patch" with
       | some (Val.vstr s) =>
         (match parse s with
          | some (Val.vmap pd) => isStr (pyGet pd "kind") "Secret" && !(check_rest pd fn)
          | _ => false)
       | _ => false)
    | _ => false)

/-- Per-line verdict of the template scanner, written after the wording of
the specification: a blank or comment line is safe; a line containing a
sensitive keyword (case-insensitive, anywhere in the line) is safe exactly
when the trimmed value after the first colon is empty, starts with a
template-interpolation opener, contains the marker ENC[, or the line carries
the ignore-line marker; any other line is safe. -/
def line_verdict (l : String) : Bool :=
  let line := pyStrip l
  if line == "" || pyStartsWith line "#" then true
  else if sensitive_keys.any (fun k => pyContains (pyLower line) k) then
    let value := tmplValue line
    value == "" || pyStartsWith value "\x7b\x7b" || pyStartsWith value "\x7b%"
      || pyStartsWith value "$\x7b" || pyStartsWith value "$("
      || pyContains value "ENC[" || pyContains line "# sops-pre-commit: ignore-line"
  else true

/-- Does the text contain no extraction trigger: no stripped line equal to
the dash separator and no stripped line starting with apiVersion:, kind: or
metadata:. -/
def noTriggers (content : String) : Bool :=
  (pySplitlines content).all (fun l =>
    !(pyStrip l == "---") && !(pyStartsWith (pyStrip l) "apiVersion:")
      && !(pyStartsWith (pyStrip l) "kind:") && !(pyStartsWith (pyStrip l) "metadata:"))

/-!
Helper lemmas shared by the claim theorems.
-/

theorem isStr_eq (v : Val) (s : String) (h : isStr v s = true) : v = Val.vstr s := by
  cases v <;> simp [isStr] at h ⊢
  exact h

theorem isStr_vstr (t s : String) : isStr (Val.vstr t) s = (t == s) := rfl

theorem lookupKey_of_pyGet (m : List (String × Val)) (k : String) (v : Val)
    (h : pyGet m k = v) (hnn : isNull v = false) : lookupKey m k = some v := by
  unfold pyGet at h
  cases hl : lookupKey m k with
  | none => rw [hl] at h; simp [Option.getD] at h; rw [← h] at hnn; simp [isNull] at hnn
  | some w => rw [hl] at h; simp [Option.getD] at h; rw [h]

theorem hasKey_of_lookup (m : List (String × Val)) (k : String) (v : Val)
    (h : lookupKey m k = some v) : hasKey m k = true := by
  simp [hasKey, h]

theorem pyGet_of_lookup (m : List (String × Val)) (k : String) (v : Val)
    (h : lookupKey m k = some v) : pyGet m k = v := by
  simp [pyGet, h]

theorem pyGet_of_not_hasKey (m : List (String × Val)) (k : String)
    (h : hasKey m k = false) : pyGet m k = Val.vnull := by
  unfold hasKey at h
  cases hl : lookupKey m k with
  | none => simp [pyGet, hl]
  | some w => rw [hl] at h; simp at h

theorem lookupKey_cons_ne (k1 k2 : String) (v : Val) (m : List (String × Val))
    (h : (k1 == k2) = false) : lookupKey ((k1, v) :: m) k2 = lookupKey m k2 := by
  simp [lookupKey, h]

theorem pyGet_cons_ne (k1 k2 : String) (v : Val) (m : List (String × Val))
    (h : (k1 == k2) = false) : pyGet ((k1, v) :: m) k2 = pyGet m k2 := by
  simp [pyGet, lookupKey_cons_ne k1 k2 v m h]

theorem hasKey_cons_ne (k1 k2 : String) (v : Val) (m : List (String × Val))
    (h : (k1 == k2) = false) : hasKey ((k1, v) :: m) k2 = hasKey m k2 := by
  simp [hasKey, lookupKey_cons_ne k1 k2 v m h]

theorem lookupKey_cons_self (k : String) (v : Val) (m : List (String × Val)) :
    lookupKey ((k, v) :: m) k = some v := by
  simp [lookupKey]

/-- On a mapping whose kind is the string Secret, the full check_secret
function reduces to check_rest: the ksops branch tests kind against ksops and
the Kustomization branch tests it against Kustomization, and both fail. This
justifies writing the guarded recursive call of line 56 of the source as
check_rest inside check_patches. -/
theorem check_secret_eq_check_rest_on_secret (parse : String → Option Val)
    (m : List (String × Val)) (fn : String)
    (h : isStr (pyGet m "kind") "Secret" = true) :
    check_secret parse (Val.vmap m) fn = some (check_rest m fn) := by
  have hk := isStr_eq _ _ h
  simp [check_secret, ksops_check, hk, isStr_vstr]

/-- Validate reduces to true under the four structural hypotheses. -/
theorem validate_sops_metadata_true (m s : List (String × Val)) (fn : String)
    (hsops : pyGet m "sops" = Val.vmap s)
    (hmac : hasKey s "mac" = true)
    (hmacNN : isNull (pyGet s "mac") = false)
    (hlm : hasKey s "lastmodified" = true)
    (hlmNN : isNull (pyGet s "lastmodified") = false) :
    validate_sops_metadata m fn = true := by
  unfold validate_sops_metadata
  rw [hsops]
  simp [hmac, hmacNN, hlm, hlmNN]

/-!
Claim theorems. Each claim of the specification has exactly one theorem,
named after the behavior it settles.
-/

/-- Claim C1: For every document that is a mapping with kind equal to Secret and
whose sops value is a mapping containing non-null mac and non-null
lastmodified fields, check_secret returns pass (True), regardless of the
contents of the data and stringData fields. -/
theorem secret_with_valid_sops_passes (parse : String → Option Val)
    (m s : List (String × Val)) (fn : String)
    (hkind : isStr (pyGet m "kind") "Secret" = true)
    (hsops : pyGet m "sops" = Val.vmap s)
    (hmac : hasKey s "mac" = true)
    (hmacNN : isNull (pyGet s "mac") = false)
    (hlm : hasKey s "lastmodified" = true)
    (hlmNN : isNull (pyGet s "lastmodified") = false) :
    check_secret parse (Val.vmap m) fn = some true := by
  rw [check_secret_eq_check_rest_on_secret parse m fn hkind]
  have hv := validate_sops_metadata_true m s fn hsops hmac hmacNN hlm hlmNN
  have hsk : lookupKey m "sops" = some (Val.vmap s) :=
    lookupKey_of_pyGet m "sops" (Val.vmap s) hsops rfl
  have hks : hasKey m "sops" = true := hasKey_of_lookup m "sops" (Val.vmap s) hsk
  unfold check_rest
  rw [hkind] at *
  simp [hkind, hks, hv]

/-- Witness for claim C1: a concrete Secret with unencrypted-looking data but a valid
sops envelope classifies as pass. -/
theorem secret_with_valid_sops_passes_witness :
    check_secret parse_none (Val.vmap [("kind", Val.vstr "Secret"),
      ("data", Val.vmap [("p", Val.vstr "x")]),
      ("sops", Val.vmap [("mac", Val.vstr "m"), ("lastmodified", Val.vstr "t")])]) "f"
      = some true :=
  secret_with_valid_sops_passes parse_none
    [("kind", Val.vstr "Secret"), ("data", Val.vmap [("p", Val.vstr "x")]),
     ("sops", Val.vmap [("mac", Val.vstr "m"), ("lastmodified", Val.vstr "t")])]
    [("mac", Val.vstr "m"), ("lastmodified", Val.vstr "t")]
    "f" rfl rfl rfl rfl rfl rfl

/-- Counterexample for claim C4: a mapping with kind ConfigMap and a sops key whose
metadata is malformed (a bare string) classifies as pass, because the
non-Secret kind short-circuits before any sops validation; so a document
declaring sops metadata can pass with incomplete metadata when its kind is
not Secret. -/
theorem sops_not_validated_for_non_secret_kind :
    check_secret parse_none
      (Val.vmap [("kind", Val.vstr "ConfigMap"), ("sops", Val.vstr "bad")]) "f" = some true
    ∧ validate_sops_metadata [("kind", Val.vstr "ConfigMap"), ("sops", Val.vstr "bad")] "f"
      = false :=
  ⟨rfl, rfl⟩

/-- Amended claim C4: for every mapping document with kind Secret that contains a
sops key, check_secret returns pass only if the sops metadata is structurally
complete (validate_sops_metadata holds of it). -/
theorem secret_with_sops_passes_only_if_valid (parse : String → Option Val)
    (m : List (String × Val)) (fn : String)
    (hkind : isStr (pyGet m "kind") "Secret" = true)
    (hsops : hasKey m "sops" = true)
    (hpass : check_secret parse (Val.vmap m) fn = some true) :
    validate_sops_metadata m fn = true := by
  rw [check_secret_eq_check_rest_on_secret parse m fn hkind] at hpass
  simp only [Option.some.injEq] at hpass
  have hk := isStr_eq _ _ hkind
  have hlk : lookupKey m "kind" = some (Val.vstr "Secret") :=
    lookupKey_of_pyGet m "kind" (Val.vstr "Secret") hk rfl
  have hhk : hasKey m "kind" = true := hasKey_of_lookup m "kind" (Val.vstr "Secret") hlk
  unfold check_rest at hpass
  cases hd : hasKey m "data" <;> cases hsd : hasKey m "stringData" <;>
    simp [hd, hsd, hkind, hhk, hsops] at hpass <;> exact hpass

/-- Witness for claim C4: a concrete Secret with a sops key that check_secret passes
indeed has structurally complete sops metadata. -/
theorem secret_with_sops_passes_only_if_valid_witness :
    validate_sops_metadata
      [("kind", Val.vstr "Secret"),
       ("sops", Val.vmap [("mac", Val.vstr "m"), ("lastmodified", Val.vstr "t")])] "f"
      = true :=
  secret_with_sops_passes_only_if_valid parse_none
    [("kind", Val.vstr "Secret"),
     ("sops", Val.vmap [("mac", Val.vstr "m"), ("lastmodified", Val.vstr "t")])]
    "f" rfl rfl rfl

/-- Counterexample for claim C2: the document with kind Secret and data mapping
containing the value 0 classifies as pass, although 0 is neither null nor
the empty string: the source tests Python truthiness of the value, and 0 is
falsy. So a data mapping with at least one non-null non-empty-string value
does not always fail. -/
theorem secret_with_falsy_data_value_passes :
    check_secret parse_none
      (Val.vmap [("kind", Val.vstr "Secret"), ("data", Val.vmap [("x", Val.vint 0)])]) "f"
      = some true
    ∧ isNull (Val.vint 0) = false
    ∧ isStr (Val.vint 0) "" = false :=
  ⟨rfl, rfl, rfl⟩

/-- Amended claim C2: for every mapping document with kind Secret or with no kind
field and no sops key, check_secret fails exactly when the data or the
stringData value counts as present, where a mapping value counts as present
only if at least one of its values is truthy (non-null, non-empty-string,
and not otherwise falsy such as 0, False or an empty collection), and a
scalar counts as present if it is non-null and not the empty string
(field_present). -/
theorem secret_without_sops_verdict (parse : String → Option Val)
    (m : List (String × Val)) (fn : String)
    (hkind : isStr (pyGet m "kind") "Secret" = true ∨ hasKey m "kind" = false)
    (hsops : hasKey m "sops" = false) :
    check_secret parse (Val.vmap m) fn
      = some (!(field_present (pyGet m "data") || field_present (pyGet m "stringData"))) := by
  have hrest : check_rest m fn
      = !(field_present (pyGet m "data") || field_present (pyGet m "stringData")) := by
    have hfirst : (hasKey m "kind" && !(isStr (pyGet m "kind") "Secret")) = false := by
      rcases hkind with h | h
      · simp [h]
      · simp [h]
    unfold check_rest
    rw [hfirst, hsops]
    cases hd : hasKey m "data" <;> cases hsd : hasKey m "stringData" <;>
      simp [pyGet_of_not_hasKey m "data", pyGet_of_not_hasKey m "stringData", hd, hsd,
        field_present, isNull]
  rcases hkind with hkind | hkind
  · rw [check_secret_eq_check_rest_on_secret parse m fn hkind, hrest]
  · have hkv : pyGet m "kind" = Val.vnull := pyGet_of_not_hasKey m "kind" hkind
    simp [check_secret, ksops_check, hkv, isStr, hrest]

/-- Witness for claim C2: a concrete Secret without sops whose data mapping holds a
non-empty string fails (the present-field formula evaluates to true). -/
theorem secret_without_sops_verdict_witness :
    check_secret parse_none
      (Val.vmap [("kind", Val.vstr "Secret"), ("data", Val.vmap [("x", Val.vstr "s")])]) "f"
      = some (!(field_present
            (pyGet [("kind", Val.vstr "Secret"), ("data", Val.vmap [("x", Val.vstr "s")])] "data")
          || field_present
            (pyGet [("kind", Val.vstr "Secret"), ("data", Val.vmap [("x", Val.vstr "s")])]
              "stringData"))) :=
  secret_without_sops_verdict parse_none
    [("kind", Val.vstr "Secret"), ("data", Val.vmap [("x", Val.vstr "s")])] "f"
    (Or.inl rfl) rfl

theorem pyGetD_cons_ne (k1 k2 : String) (v d : Val) (m : List (String × Val))
    (h : (k1 == k2) = false) : pyGetD ((k1, v) :: m) k2 d = pyGetD m k2 d := by
  simp [pyGetD, lookupKey_cons_ne k1 k2 v m h]

theorem validate_cons_ne (k : String) (v : Val) (m : List (String × Val)) (fn : String)
    (h : (k == "sops") = false) :
    validate_sops_metadata ((k, v) :: m) fn = validate_sops_metadata m fn := by
  unfold validate_sops_metadata
  rw [pyGet_cons_ne k "sops" v m h]

theorem gen_result_cons_ne (k : String) (v : Val) (m : List (String × Val))
    (h : (k == "secretGenerator") = false) :
    gen_result ((k, v) :: m) = gen_result m := by
  simp only [gen_result, pyGetItem, hasKey_cons_ne k "secretGenerator" v m h,
    lookupKey_cons_ne k "secretGenerator" v m h]

theorem patches_result_cons_ne (parse : String → Option Val) (k : String) (v : Val)
    (m : List (String × Val)) (fn : String) (h : (k == "patches") = false) :
    patches_result parse ((k, v) :: m) fn = patches_result parse m fn := by
  simp only [patches_result, pyGetItem, hasKey_cons_ne k "patches" v m h,
    lookupKey_cons_ne k "patches" v m h]

theorem ksops_check_cons_ne (k : String) (v : Val) (m : List (String × Val))
    (h1 : (k == "kind") = false) (h2 : (k == "apiVersion") = false) :
    ksops_check ((k, v) :: m) = ksops_check m := by
  unfold ksops_check
  rw [pyGet_cons_ne k "kind" v m h1, pyGetD_cons_ne k "apiVersion" v (Val.vstr "") m h2]

/-- A mapping whose values are all null or empty strings never counts as a
present field block. -/
theorem field_present_all_empty (mv : List (String × Val))
    (hemp : mv.all (fun p => isNull p.2 || isStr p.2 "") = true) :
    field_present (Val.vmap mv) = false := by
  simp only [field_present, List.any_eq_false]
  intro p hp
  have h := List.all_eq_true.mp hemp p hp
  rcases Bool.or_eq_true_iff.mp h with h1 | h1 <;> simp [h1]

/-- An absent field (dict.get returning None) never counts as present. -/
theorem field_present_vnull : field_present Val.vnull = false := rfl

/-- Counterexample for claim C5: the kindless document with only a malformed sops key
passes, but the same document with an added empty data mapping fails — an
all-empty field block is not always treated like an absent one. -/
theorem empty_data_block_changes_verdict :
    check_secret parse_none (Val.vmap [("sops", Val.vstr "x")]) "f" = some true
    ∧ check_secret parse_none (Val.vmap [("data", Val.vmap []), ("sops", Val.vstr "x")]) "f"
      = some false :=
  ⟨rfl, rfl⟩

/-- Adding an all-empty data or stringData block in front of a document
leaves check_rest unchanged, provided the document has kind Secret, or has
no sops key, or its sops metadata validates. -/
theorem check_rest_cons_empty (m mv : List (String × Val)) (fn k : String)
    (hk : k = "data" ∨ k = "stringData")
    (habs : hasKey m k = false)
    (hemp : mv.all (fun p => isNull p.2 || isStr p.2 "") = true)
    (hside : isStr (pyGet m "kind") "Secret" = true ∨ hasKey m "sops" = false
      ∨ validate_sops_metadata m fn = true) :
    check_rest ((k, Val.vmap mv) :: m) fn = check_rest m fn := by
  have hfp := field_present_all_empty mv hemp
  rcases hk with rfl | rfl
  · have e1 : pyGet (("data", Val.vmap mv) :: m) "kind" = pyGet m "kind" :=
      pyGet_cons_ne _ _ _ _ (by decide)
    have e2 : hasKey (("data", Val.vmap mv) :: m) "kind" = hasKey m "kind" :=
      hasKey_cons_ne _ _ _ _ (by decide)
    have e4 : hasKey (("data", Val.vmap mv) :: m) "sops" = hasKey m "sops" :=
      hasKey_cons_ne _ _ _ _ (by decide)
    have e5 : hasKey (("data", Val.vmap mv) :: m) "stringData" = hasKey m "stringData" :=
      hasKey_cons_ne _ _ _ _ (by decide)
    have e6 : pyGet (("data", Val.vmap mv) :: m) "stringData" = pyGet m "stringData" :=
      pyGet_cons_ne _ _ _ _ (by decide)
    have e7 : hasKey (("data", Val.vmap mv) :: m) "data" = true :=
      hasKey_of_lookup _ _ _ (lookupKey_cons_self _ _ _)
    have e8 : pyGet (("data", Val.vmap mv) :: m) "data" = Val.vmap mv :=
      pyGet_of_lookup _ _ _ (lookupKey_cons_self _ _ _)
    have e9 := validate_cons_ne "data" (Val.vmap mv) m fn (by decide)
    unfold check_rest
    rw [e1, e2, e4, e5, e6, e7, e8, e9]
    cases hC1 : (hasKey m "kind" && !(isStr (pyGet m "kind") "Secret")) <;> simp only [hC1]
    · cases hsd : hasKey m "stringData"
      · simp only [habs, hsd, hfp]
        cases hss : hasKey m "sops"
        · simp [pyGet_of_not_hasKey m "stringData" hsd, field_present, isNull]
        · rcases hside with ha | hb | hc
          · simp [ha, hss]
          · rw [hb] at hss; exact absurd hss (by simp)
          · rw [hc]
            cases hi : isStr (pyGet m "kind") "Secret" <;>
              simp [hss, pyGet_of_not_hasKey m "stringData" hsd, field_present, isNull]
      · simp [habs, hsd, hfp, pyGet_of_not_hasKey m "data" habs, field_present_vnull]
    · simp
  · have e1 : pyGet (("stringData", Val.vmap mv) :: m) "kind" = pyGet m "kind" :=
      pyGet_cons_ne _ _ _ _ (by decide)
    have e2 : hasKey (("stringData", Val.vmap mv) :: m) "kind" = hasKey m "kind" :=
      hasKey_cons_ne _ _ _ _ (by decide)
    have e4 : hasKey (("stringData", Val.vmap mv) :: m) "sops" = hasKey m "sops" :=
      hasKey_cons_ne _ _ _ _ (by decide)
    have e5 : hasKey (("stringData", Val.vmap mv) :: m) "data" = hasKey m "data" :=
      hasKey_cons_ne _ _ _ _ (by decide)
    have e6 : pyGet (("stringData", Val.vmap mv) :: m) "data" = pyGet m "data" :=
      pyGet_cons_ne _ _ _ _ (by decide)
    have e7 : hasKey (("stringData", Val.vmap mv) :: m) "stringData" = true :=
      hasKey_of_lookup _ _ _ (lookupKey_cons_self _ _ _)
    have e8 : pyGet (("stringData", Val.vmap mv) :: m) "stringData" = Val.vmap mv :=
      pyGet_of_lookup _ _ _ (lookupKey_cons_self _ _ _)
    have e9 := validate_cons_ne "stringData" (Val.vmap mv) m fn (by decide)
    unfold check_rest
    rw [e1, e2, e4, e5, e6, e7, e8, e9]
    cases hC1 : (hasKey m "kind" && !(isStr (pyGet m "kind") "Secret")) <;> simp only [hC1]
    · cases hsd : hasKey m "data"
      · simp only [habs, hsd, hfp]
        cases hss : hasKey m "sops"
        · simp [pyGet_of_not_hasKey m "data" hsd, field_present, isNull]
        · rcases hside with ha | hb | hc
          · simp [ha, hss]
          · rw [hb] at hss; exact absurd hss (by simp)
          · rw [hc]
            cases hi : isStr (pyGet m "kind") "Secret" <;>
              simp [hss, pyGet_of_not_hasKey m "data" hsd, field_present, isNull]
      · simp [habs, hsd, hfp, pyGet_of_not_hasKey m "stringData" habs, field_present_vnull]
    · simp

/-- Amended claim C5: classification treats an all-empty or all-null field block
exactly like an absent one, provided the document has kind Secret, or has no
sops key, or its sops metadata is structurally complete; the remaining
documents (no kind field together with a malformed sops block) change their
verdict from pass to fail when the empty block is added. -/
theorem empty_field_block_like_absent (parse : String → Option Val)
    (m mv : List (String × Val)) (fn k : String)
    (hk : k = "data" ∨ k = "stringData")
    (habs : hasKey m k = false)
    (hemp : mv.all (fun p => isNull p.2 || isStr p.2 "") = true)
    (hside : isStr (pyGet m "kind") "Secret" = true ∨ hasKey m "sops" = false
      ∨ validate_sops_metadata m fn = true) :
    check_secret parse (Val.vmap ((k, Val.vmap mv) :: m)) fn
      = check_secret parse (Val.vmap m) fn := by
  have hkind_ne : (k == "kind") = false := by rcases hk with rfl | rfl <;> decide
  have hapi_ne : (k == "apiVersion") = false := by rcases hk with rfl | rfl <;> decide
  have hsg_ne : (k == "secretGenerator") = false := by rcases hk with rfl | rfl <;> decide
  have hpat_ne : (k == "patches") = false := by rcases hk with rfl | rfl <;> decide
  have hks := ksops_check_cons_ne k (Val.vmap mv) m hkind_ne hapi_ne
  have hkindget : pyGet ((k, Val.vmap mv) :: m) "kind" = pyGet m "kind" :=
    pyGet_cons_ne _ _ _ _ hkind_ne
  have hkust : check_kustomization parse ((k, Val.vmap mv) :: m) fn
      = check_kustomization parse m fn := by
    unfold check_kustomization
    rw [gen_result_cons_ne k (Val.vmap mv) m hsg_ne,
      patches_result_cons_ne parse k (Val.vmap mv) m fn hpat_ne]
  have hrest := check_rest_cons_empty m mv fn k hk habs hemp hside
  simp only [check_secret, hks, hkindget, hkust, hrest]

/-- Witness for claim C5: prepending an empty stringData block to a well-formed Secret
document leaves the verdict unchanged. -/
theorem empty_field_block_like_absent_witness :
    check_secret parse_none
      (Val.vmap [("stringData", Val.vmap []), ("kind", Val.vstr "Secret"),
        ("data", Val.vmap [("p", Val.vstr "x")])]) "f"
      = check_secret parse_none
        (Val.vmap [("kind", Val.vstr "Secret"), ("data", Val.vmap [("p", Val.vstr "x")])]) "f" :=
  empty_field_block_like_absent parse_none
    [("kind", Val.vstr "Secret"), ("data", Val.vmap [("p", Val.vstr "x")])] [] "f" "stringData"
    (Or.inr rfl) rfl rfl (Or.inl rfl)

theorem lookup_none_of_not_hasKey (m : List (String × Val)) (k : String)
    (h : hasKey m k = false) : lookupKey m k = none := by
  unfold hasKey at h
  cases hl : lookupKey m k with
  | none => rfl
  | some v => rw [hl] at h; simp at h

/-- The files loop under the GeneratorSpec data model: it fails exactly when
some path lacks both encrypted suffixes. -/
theorem check_files_wf (fl : List Val)
    (hwf : fl.all (fun f => match f with | Val.vstr _ => true | _ => false) = true) :
    check_files fl = some (!(fl.any bad_file)) := by
  induction fl with
  | nil => rfl
  | cons f fs ih =>
    rw [List.all_cons, Bool.and_eq_true] at hwf
    obtain ⟨hf, hfs⟩ := hwf
    cases f <;> simp at hf
    case vstr s =>
      cases he : (pyEndsWith s ".enc.yaml" || pyEndsWith s ".sops.yaml") <;>
        simp [check_files, bad_file, he, ih hfs]

/-- The secretGenerator loop under the GeneratorSpec data model: it fails
exactly when some entry declares literals or references a non-encrypted
file. -/
theorem check_generators_wf (gens : List Val) (hwf : gensWF gens = true) :
    check_generators gens = some (!(hasLiterals gens || hasBadFile gens)) := by
  induction gens with
  | nil => rfl
  | cons g gs ih =>
    unfold gensWF at hwf
    rw [List.all_cons, Bool.and_eq_true] at hwf
    obtain ⟨hg, hgs⟩ := hwf
    have ihs := ih hgs
    cases g with
    | vnull => simp [entryWF] at hg
    | vbool b => simp [entryWF] at hg
    | vint n => simp [entryWF] at hg
    | vstr s => simp [entryWF] at hg
    | vlist l => simp [entryWF] at hg
    | vmap gm =>
      simp only [entryWF] at hg
      simp only [check_generators, pyInStr, Option.bind]
      cases hl : hasKey gm "literals"
      · cases hff : hasKey gm "files"
        · have hnone := lookup_none_of_not_hasKey gm "files" hff
          simp [hl, hff, ihs, hasLiterals, entry_literals, hasBadFile, entry_badfiles, hnone,
            List.any_cons]
        · have hex : ∃ v, lookupKey gm "files" = some v := by
            unfold hasKey at hff
            cases hlk : lookupKey gm "files" with
            | none => rw [hlk] at hff; simp at hff
            | some v => exact ⟨v, rfl⟩
          obtain ⟨fv, hlk⟩ := hex
          rw [hlk] at hg
          cases fv with
          | vnull => simp at hg
          | vbool b => simp at hg
          | vint n => simp at hg
          | vstr s => simp at hg
          | vmap mm => simp at hg
          | vlist fl =>
            have hcf := check_files_wf fl hg
            cases hanyb : fl.any bad_file <;>
              simp [hl, hff, hlk, hcf, hanyb, pyGetItem, pyIter, hasLiterals, entry_literals,
                hasBadFile, entry_badfiles, List.any_cons, ihs]
      · simp [hl, hasLiterals, entry_literals, List.any_cons]

/-- Claim C6: For a Kustomization whose secretGenerator entries follow the
GeneratorSpec data model (mappings; files lists of path strings): the
generator check fails exactly when some entry carries a literals key (even
with an empty list value) or some files path ends in neither .enc.yaml nor
.sops.yaml, and in that case check_secret returns fail; when no entry has
literals and every files path is approved, the generator check passes and
the overall verdict is delegated to the patches section. -/
theorem kustomization_generator_verdict (parse : String → Option Val)
    (m : List (String × Val)) (fn : String) (gens : List Val)
    (hkind : isStr (pyGet m "kind") "Kustomization" = true)
    (hsg : lookupKey m "secretGenerator" = some (Val.vlist gens))
    (hwf : gensWF gens = true) :
    check_generators gens = some (!(hasLiterals gens || hasBadFile gens))
    ∧ check_secret parse (Val.vmap m) fn
      = (if hasLiterals gens || hasBadFile gens then some false
         else patches_result parse m fn) := by
  have hcg := check_generators_wf gens hwf
  refine ⟨hcg, ?_⟩
  have hk := isStr_eq _ _ hkind
  have hkso : ksops_check m = some false := by
    unfold ksops_check
    rw [hk]
    simp [isStr_vstr]
  have hhk : hasKey m "secretGenerator" = true :=
    hasKey_of_lookup m "secretGenerator" (Val.vlist gens) hsg
  simp only [check_secret, hkso, hkind, if_true]
  unfold check_kustomization gen_result
  simp only [hhk, pyGetItem, hsg, pyIter, Option.bind, hcg, if_true]
  cases hlb : (hasLiterals gens || hasBadFile gens) <;> simp [hcg, hlb]

/-- Witness for claim C6: a single generator entry with an empty literals list makes
the Kustomization fail. -/
theorem kustomization_generator_verdict_witness :
    check_generators [Val.vmap [("literals", Val.vlist [])]]
      = some (!(hasLiterals [Val.vmap [("literals", Val.vlist [])]]
          || hasBadFile [Val.vmap [("literals", Val.vlist [])]]))
    ∧ check_secret parse_none
        (Val.vmap [("kind", Val.vstr "Kustomization"),
          ("secretGenerator", Val.vlist [Val.vmap [("literals", Val.vlist [])]])]) "f"
      = (if hasLiterals [Val.vmap [("literals", Val.vlist [])]]
            || hasBadFile [Val.vmap [("literals", Val.vlist [])]]
         then some false
         else patches_result parse_none
           [("kind", Val.vstr "Kustomization"),
            ("secretGenerator", Val.vlist [Val.vmap [("literals", Val.vlist [])]])] "f") :=
  kustomization_generator_verdict parse_none
    [("kind", Val.vstr "Kustomization"),
     ("secretGenerator", Val.vlist [Val.vmap [("literals", Val.vlist [])]])]
    "f" [Val.vmap [("literals", Val.vlist [])]] rfl rfl rfl

/-- The patches loop under the PatchSpec data model: parse failures and
non-Secret or non-mapping parses are skipped, and the loop fails exactly
when some entry embeds a Secret document failing the classifier. -/
theorem check_patches_wf (parse : String → Option Val) (fn : String) (pl : List Val)
    (hwf : patchesWF pl = true) :
    check_patches parse fn pl = some (!(anyFailingSecret parse pl fn)) := by
  induction pl with
  | nil => rfl
  | cons p ps ih =>
    unfold patchesWF at hwf
    rw [List.all_cons, Bool.and_eq_true] at hwf
    obtain ⟨hp, hps⟩ := hwf
    have ihs := ih hps
    cases p with
    | vnull => simp [check_patches, anyFailingSecret, List.any_cons, ihs, anyFailingSecret]
    | vbool b => simp [check_patches, anyFailingSecret, List.any_cons, ihs]
    | vint n => simp [check_patches, anyFailingSecret, List.any_cons, ihs]
    | vstr s => simp [check_patches, anyFailingSecret, List.any_cons, ihs]
    | vlist l => simp [check_patches, anyFailingSecret, List.any_cons, ihs]
    | vmap pm =>
      simp only [] at hp
      cases hlk : lookupKey pm "patch" with
      | none => simp [check_patches, hlk, anyFailingSecret, List.any_cons, ihs]
      | some v =>
        rw [hlk] at hp
        cases v with
        | vnull => simp at hp
        | vbool b => simp at hp
        | vint n => simp at hp
        | vlist l => simp at hp
        | vmap mm => simp at hp
        | vstr s =>
          cases hpar : parse s with
          | none => simp [check_patches, hlk, hpar, anyFailingSecret, List.any_cons, ihs]
          | some pd =>
            cases pd with
            | vmap pdm =>
              cases hsec : isStr (pyGet pdm "kind") "Secret"
              · simp [check_patches, hlk, hpar, hsec, anyFailingSecret, List.any_cons, ihs]
              · cases hcr : check_rest pdm fn <;>
                  simp [check_patches, hlk, hpar, hsec, hcr, anyFailingSecret,
                    List.any_cons, ihs]
            | vnull => simp [check_patches, hlk, hpar, anyFailingSecret, List.any_cons, ihs]
            | vbool b => simp [check_patches, hlk, hpar, anyFailingSecret, List.any_cons, ihs]
            | vint n => simp [check_patches, hlk, hpar, anyFailingSecret, List.any_cons, ihs]
            | vstr t => simp [check_patches, hlk, hpar, anyFailingSecret, List.any_cons, ihs]
            | vlist l => simp [check_patches, hlk, hpar, anyFailingSecret, List.any_cons, ihs]

/-- Claim C7: For a Kustomization whose patches entries follow the PatchSpec data
model (patch values serialized as strings) and whose generator section
passes: the overall verdict is the patches-loop verdict, and that loop fails
exactly when some entry that is a mapping with a patch key parses to a
mapping of kind Secret on which the classifier (check_rest, equal to the
recursive check_secret call by check_secret_eq_check_rest_on_secret) fails;
in particular parse failures are silently ignored and never cause a fail
verdict. -/
theorem kustomization_patches_verdict (parse : String → Option Val)
    (m : List (String × Val)) (fn : String) (pl : List Val)
    (hkind : isStr (pyGet m "kind") "Kustomization" = true)
    (hpat : lookupKey m "patches" = some (Val.vlist pl))
    (hgen : gen_result m = some true)
    (hwf : patchesWF pl = true) :
    check_secret parse (Val.vmap m) fn = check_patches parse fn pl
    ∧ check_patches parse fn pl = some (!(anyFailingSecret parse pl fn)) := by
  have hcp := check_patches_wf parse fn pl hwf
  refine ⟨?_, hcp⟩
  have hk := isStr_eq _ _ hkind
  have hkso : ksops_check m = some false := by
    unfold ksops_check
    rw [hk]
    simp [isStr_vstr]
  have hhp : hasKey m "patches" = true := hasKey_of_lookup m "patches" (Val.vlist pl) hpat
  simp only [check_secret, hkso, hkind, if_true]
  unfold check_kustomization
  rw [hgen]
  unfold patches_result
  simp [hhp, pyGetItem, hpat, pyIter]

/-- Witness for claim C7: a Kustomization with one patch entry whose string parses to
an unencrypted Secret fails through the recursive classification. -/
theorem kustomization_patches_verdict_witness :
    check_secret parse_patch_secret
      (Val.vmap [("kind", Val.vstr "Kustomization"),
        ("patches", Val.vlist [Val.vmap [("patch", Val.vstr "ps")]])]) "f"
      = check_patches parse_patch_secret "f" [Val.vmap [("patch", Val.vstr "ps")]]
    ∧ check_patches parse_patch_secret "f" [Val.vmap [("patch", Val.vstr "ps")]]
      = some (!(anyFailingSecret parse_patch_secret
          [Val.vmap [("patch", Val.vstr "ps")]] "f")) :=
  kustomization_patches_verdict parse_patch_secret
    [("kind", Val.vstr "Kustomization"),
     ("patches", Val.vlist [Val.vmap [("patch", Val.vstr "ps")]])]
    "f" [Val.vmap [("patch", Val.vstr "ps")]] rfl rfl rfl rfl

theorem dropWS_nil_of_all (xs : List Char) (h : ∀ c ∈ xs, isWS c = true) :
    dropWS xs = [] := by
  induction xs with
  | nil => rfl
  | cons c cs ih =>
    have hc := h c (List.mem_cons_self c cs)
    simp only [dropWS, hc, if_true]
    exact ih (fun d hd => h d (List.mem_cons_of_mem c hd))

theorem all_of_dropWS_nil (xs : List Char) (h : dropWS xs = []) :
    ∀ c ∈ xs, isWS c = true := by
  induction xs with
  | nil => intro c hc; simp at hc
  | cons c cs ih =>
    intro d hd
    cases hic : isWS c
    · rw [dropWS, hic] at h
      simp at h
    · rw [dropWS, hic] at h
      simp only [if_true] at h
      rcases List.mem_cons.mp hd with rfl | hdm
      · exact hic
      · exact ih h d hdm

theorem all_ws_of_dropWS (xs : List Char) (h : ∀ c ∈ dropWS xs, isWS c = true) :
    ∀ c ∈ xs, isWS c = true := by
  induction xs with
  | nil => intro c hc; simp at hc
  | cons c cs ih =>
    intro d hd
    cases hic : isWS c
    · have hcm := h c (by rw [dropWS, hic]; simp)
      rw [hic] at hcm
      simp at hcm
    · rcases List.mem_cons.mp hd with rfl | hdm
      · exact hic
      · exact (ih (fun e he => h e (by rw [dropWS, hic]; simpa using he))) d hdm

theorem pyStrip_empty_of_all_ws (s : String) (h : ∀ c ∈ s.data, isWS c = true) :
    pyStrip s = "" := by
  unfold pyStrip
  rw [dropWS_nil_of_all s.data h]
  rfl

theorem all_ws_of_pyStrip_empty (s : String) (h : pyStrip s = "") :
    ∀ c ∈ s.data, isWS c = true := by
  unfold pyStrip at h
  have hl : (dropWS ((dropWS s.data).reverse)).reverse = ([] : List Char) :=
    congrArg String.data h
  rw [List.reverse_eq_nil_iff] at hl
  have h2 := all_of_dropWS_nil _ hl
  have h3 : ∀ c ∈ dropWS s.data, isWS c = true :=
    fun c hc => h2 c (List.mem_reverse.mpr hc)
  exact all_ws_of_dropWS s.data h3

theorem splitlines_all_ws (cs acc : List Char) :
    (∀ c ∈ cs, isWS c = true) → (∀ c ∈ acc, isWS c = true) →
    ∀ l ∈ splitlinesAux cs acc, ∀ c ∈ l, isWS c = true := by
  induction cs, acc using splitlinesAux.induct with
  | case1 =>
    intro _ _ l hl
    simp [splitlinesAux] at hl
  | case2 acc hne =>
    intro _ h2 l hl
    rw [splitlinesAux.eq_2 acc hne, List.mem_singleton] at hl
    intro c hc
    rw [hl] at hc
    exact h2 c (List.mem_reverse.mp hc)
  | case3 rest acc ih =>
    intro h1 h2 l hl
    rw [splitlinesAux.eq_3, List.mem_cons] at hl
    rcases hl with rfl | hl
    · intro c hc; exact h2 c (List.mem_reverse.mp hc)
    · exact ih (by intro c hc; exact h1 c (by simp [hc])) (by intro c hc; simp at hc) l hl
  | case4 rest acc ih =>
    intro h1 h2 l hl
    rw [splitlinesAux.eq_4, List.mem_cons] at hl
    rcases hl with rfl | hl
    · intro c hc; exact h2 c (List.mem_reverse.mp hc)
    · exact ih (by intro c hc; exact h1 c (by simp [hc])) (by intro c hc; simp at hc) l hl
  | case5 rest acc hne ih =>
    intro h1 h2 l hl
    rw [splitlinesAux.eq_5 acc rest hne, List.mem_cons] at hl
    rcases hl with rfl | hl
    · intro c hc; exact h2 c (List.mem_reverse.mp hc)
    · exact ih (by intro c hc; exact h1 c (by simp [hc])) (by intro c hc; simp at hc) l hl
  | case6 c rest acc hne1 hne2 hne3 ih =>
    intro h1 h2 l hl
    rw [splitlinesAux.eq_6 acc c rest hne1 hne2 hne3] at hl
    exact ih (by intro d hd; exact h1 d (by simp [hd]))
      (by
        intro d hd
        rcases List.mem_cons.mp hd with rfl | hdm
        · exact h1 d (List.mem_cons_self d rest)
        · exact h2 d hdm) l hl

/-- The scanner loop is the conjunction of the per-line verdicts. -/
theorem tmpl_go_eq_all (ls : List String) : tmpl_go ls = ls.all line_verdict := by
  induction ls with
  | nil => rfl
  | cons l ls ih =>
    rw [List.all_cons, ← ih]
    cases hb : (pyStrip l == "" || pyStartsWith (pyStrip l) "#")
    · cases hkw : sensitive_keys.any (fun k => pyContains (pyLower (pyStrip l)) k)
      · simp [tmpl_go, line_verdict, hb, hkw]
      · cases hmark : pyContains (pyStrip l) "# sops-pre-commit: ignore-line"
        · cases hval : (tmplValue (pyStrip l) == ""
              || pyStartsWith (tmplValue (pyStrip l)) "\x7b\x7b"
              || pyStartsWith (tmplValue (pyStrip l)) "\x7b%"
              || pyStartsWith (tmplValue (pyStrip l)) "$\x7b"
              || pyStartsWith (tmplValue (pyStrip l)) "$("
              || pyContains (tmplValue (pyStrip l)) "ENC[") <;>
            simp [tmpl_go, line_verdict, hb, hkw, hmark, hval]
        · simp [tmpl_go, line_verdict, hb, hkw, hmark]
    · simp [tmpl_go, line_verdict, hb]

/-- Claim C8: The template scan passes exactly when every line has a true
per-line verdict, where a line containing a sensitive keyword is safe when
the value after the first colon is empty, starts with a template
interpolation opener, contains ENC[, or the line carries the ignore-line
marker, and fails otherwise (line_verdict); in particular the vault
placeholder line passes and the literal password line fails. -/
theorem template_scan_line_conditions :
    (∀ content fn, check_template_content content fn
      = (pySplitlines content).all line_verdict)
    ∧ check_template_content "password: \x7b\x7b vault_password \x7d\x7d" "t.j2" = true
    ∧ check_template_content "password: hunter2" "t.j2" = false := by
  refine ⟨?_, rfl, rfl⟩
  intro content fn
  unfold check_template_content
  cases hempty : (content == "")
  · cases hstrip : (pyStrip content == "")
    · simp only [hempty, hstrip, Bool.or_self, Bool.false_or, if_false]
      exact tmpl_go_eq_all (pySplitlines content)
    · have hws := all_ws_of_pyStrip_empty content (by simpa using hstrip)
      have hlines : ∀ l ∈ pySplitlines content, line_verdict l = true := by
        intro l hl
        unfold pySplitlines at hl
        rw [List.mem_map] at hl
        obtain ⟨lc, hlc, rfl⟩ := hl
        have hws2 := splitlines_all_ws content.data [] hws
          (by intro c hc; simp at hc) lc hlc
        have hse : pyStrip (String.mk lc) = "" := pyStrip_empty_of_all_ws _ hws2
        simp [line_verdict, hse]
      simp only [hempty, hstrip, Bool.false_or, if_true]
      exact (List.all_eq_true.mpr hlines).symm
  · have hc : content = "" := by simpa using hempty
    subst hc
    rfl

/-- Claim C10: Keyword detection in the template scanner is a case-insensitive
substring test over the whole line: any single-line input that is not blank,
not a comment, carries no ignore-line marker, whose lowercased text contains
one of the sensitive keywords anywhere, and whose value after the first
colon is non-empty, starts with no interpolation opener and contains no
ENC[ marker, fails the scan — whether or not the keyword is the key of the
line itself. -/
theorem keyword_substring_match_fails (l fn : String)
    (h0 : pySplitlines l = [l])
    (h1 : (pyStrip l == "") = false)
    (h2 : pyStartsWith (pyStrip l) "#" = false)
    (h3 : sensitive_keys.any (fun k => pyContains (pyLower (pyStrip l)) k) = true)
    (h4 : pyContains (pyStrip l) "# sops-pre-commit: ignore-line" = false)
    (h5 : (tmplValue (pyStrip l) == "") = false)
    (h6 : (pyStartsWith (tmplValue (pyStrip l)) "\x7b\x7b"
        || pyStartsWith (tmplValue (pyStrip l)) "\x7b%"
        || pyStartsWith (tmplValue (pyStrip l)) "$\x7b"
        || pyStartsWith (tmplValue (pyStrip l)) "$("
        || pyContains (tmplValue (pyStrip l)) "ENC[") = false) :
    check_template_content l fn = false := by
  have hne : (l == "") = false := by
    cases hle : (l == "")
    · rfl
    · have hleq : l = "" := by simpa using hle
      subst hleq
      simp [pyStrip, dropWS] at h1
  unfold check_template_content
  simp only [hne, h1, Bool.or_self, Bool.or_false, Bool.false_or, if_false]
  rw [h0]
  simp [tmpl_go, h1, h2, h3, h4, h5, h6]

/-- Witness for claim C10: the line whose key is monkey fails because the keyword
key: occurs inside monkey: as a substring. -/
theorem keyword_substring_match_fails_witness :
    check_template_content "monkey: hunter2" "f" = false :=
  keyword_substring_match_fails "monkey: hunter2" "f" rfl rfl rfl rfl rfl rfl rfl

/-- Counterexample for claim C9: first, the stream consisting of the single line of
three dashes accumulates one candidate block whose parse succeeds (yielding
the null document), yet the extractor appends nothing, because the source
tests truthiness of the parsed document, not parse success; second, an
indented kind: line — a line that does not start with kind: — still starts
accumulation (the source strips lines before matching), so the extractor is
not empty on it. -/
theorem extractor_discards_falsy_parse :
    (extract_yaml_documents parse_null_doc "---" = []
      ∧ parse_null_doc "---" = some Val.vnull)
    ∧ (extract_yaml_documents parse_indented_kind "  kind: a"
          = [Val.vmap [("kind", Val.vstr "a")]]
      ∧ pyStartsWith "  kind: a" "apiVersion:" = false
      ∧ pyStartsWith "  kind: a" "kind:" = false
      ∧ pyStartsWith "  kind: a" "metadata:" = false
      ∧ ("  kind: a" == "---") = false) :=
  ⟨⟨rfl, rfl⟩, rfl, rfl, rfl, rfl, rfl⟩

/-- While no trigger line has been seen, the extractor stays idle and emits
nothing. -/
theorem extract_go_idle_no_triggers (parse : String → Option Val) (lines : List String)
    (h : ∀ l ∈ lines, (!(pyStrip l == "---") && !(pyStartsWith (pyStrip l) "apiVersion:")
      && !(pyStartsWith (pyStrip l) "kind:")
      && !(pyStartsWith (pyStrip l) "metadata:")) = true) :
    ∀ cur docs, extract_go parse lines cur false docs = docs := by
  induction lines with
  | nil => intro cur docs; simp [extract_go]
  | cons l ls ih =>
    intro cur docs
    have hl := h l (List.mem_cons_self l ls)
    rw [Bool.and_eq_true, Bool.and_eq_true, Bool.and_eq_true] at hl
    obtain ⟨⟨⟨h1, h2⟩, h3⟩, h4⟩ := hl
    simp only [Bool.not_eq_true'] at h1 h2 h3 h4
    have ihs := ih (fun d hd => h d (List.mem_cons_of_mem l hd))
    simp [extract_go, h1, h2, h3, h4, ihs]

/-- Amended claim C9: a candidate block whose parse succeeds is appended exactly
when the parsed document is truthy (parse failures and falsy documents such
as null are discarded silently); and a text none of whose stripped lines is
the dash separator or starts with apiVersion:, kind: or metadata: extracts
to the empty sequence. -/
theorem extractor_appends_truthy_and_idle :
    (∀ (parse : String → Option Val) (cur : List String) (docs : List Val) (d : Val),
      parse (pyJoinNL cur) = some d → truthy d = true →
        flush_doc parse cur docs = docs ++ [d])
    ∧ (∀ (parse : String → Option Val) (content : String),
        noTriggers content = true → extract_yaml_documents parse content = []) := by
  constructor
  · intro parse cur docs d hp ht
    unfold flush_doc
    rw [hp]
    simp [ht]
  · intro parse content hnt
    unfold noTriggers at hnt
    unfold extract_yaml_documents
    exact extract_go_idle_no_triggers parse (pySplitlines content)
      (List.all_eq_true.mp hnt) [] []

/-- Witness for claim C9: a truthy successful parse is appended by the flush, and a
text with no trigger line extracts to nothing. -/
theorem extractor_appends_truthy_and_idle_witness :
    flush_doc parse_indented_kind ["  kind: a"] []
      = [] ++ [Val.vmap [("kind", Val.vstr "a")]]
    ∧ extract_yaml_documents parse_none "hello\nworld" = [] :=
  ⟨extractor_appends_truthy_and_idle.1 parse_indented_kind ["  kind: a"] []
      (Val.vmap [("kind", Val.vstr "a")]) rfl rfl,
   extractor_appends_truthy_and_idle.2 parse_none "hello\nworld" rfl⟩

/-- Counterexample for claim C3: the template file x.j2 with content kind: Secret,
stringData, a: b passes the template line scan, yet its verdict still
depends on structured parsing: with a stream oracle yielding the parsed
Secret document the file fails (the content was submitted to check_secret),
and with a stream oracle yielding no documents it passes. Template files
are therefore not routed to the line scanner exclusively: after a passing
scan the content is parsed and classified as structured documents. -/
theorem template_file_also_classified :
    check_template_content tpl_content "x.j2" = true
    ∧ process_file parse_all_secret parse_none "x.j2" tpl_content = false
    ∧ process_file parse_all_empty parse_none "x.j2" tpl_content = true :=
  ⟨rfl, rfl, rfl⟩

/-- Amended claim C3: for a file with a templating suffix and no file-level
ignore marker, a failing template scan fails the file (regardless of any
parsing), but a passing scan falls through to document extraction and
classification, whose verdict then decides. -/
theorem template_scan_then_parse (parse_all : String → Option (List Val))
    (parse : String → Option Val) (fn content : String)
    (hext : (pyEndsWith fn ".j2" || pyEndsWith fn ".jsonnet") = true)
    (hig : ignore_file_marker content = false) :
    process_file parse_all parse fn content
      = (check_template_content content fn
        && check_docs parse (load_docs parse_all parse content) fn) := by
  unfold process_file
  cases hscan : check_template_content content fn
  · simp [hig, hext, hscan]
  · simp [hig, hext, hscan]

/-- Witness for claim C3: on the concrete template file the process verdict equals
the conjunction of the scan verdict and the document-classification
verdict. -/
theorem template_scan_then_parse_witness :
    process_file parse_all_secret parse_none "x.j2" tpl_content
      = (check_template_content tpl_content "x.j2"
        && check_docs parse_none (load_docs parse_all_secret parse_none tpl_content) "x.j2") :=
  template_scan_then_parse parse_all_secret parse_none "x.j2" tpl_content rfl rfl

end SopsPreCommit
